import Mathlib

/-!
Verification of the OptiCoder summarisation pipeline (src/app.py) against
its design document.  The embedding below mirrors, function by function,
the question-list normalisation (line 73), the generate-action input gate
(lines 93-95), the prompt composition (lines 98-131), the completion calls
actually issued inside the generate branch (lines 132-137), the
structured-reply extractor (lines 142-159: regular-expression isolation of
the Summary fragment, markup parse, section traversal), and the PDF export
block assembly (lines 189-215).  Text is modelled as a list of characters
wherever Python-level string scanning matters, and as a Lean string
elsewhere.
-/

/-- Whitespace set of the Python str.strip method, restricted to the ASCII
characters it strips: space, tab, newline, carriage return, vertical tab
and form feed. -/
def isPySpace (c : Char) : Bool :=
  c = ' ' || c = '\t' || c = '\n' || c = '\r' || c = '\x0b' || c = '\x0c'

/-- Leading-whitespace removal (left half of Python str.strip). -/
def lstrip (s : List Char) : List Char := s.dropWhile isPySpace

/-- Trailing-whitespace removal (right half of Python str.strip). -/
def rstrip (s : List Char) : List Char := (s.reverse.dropWhile isPySpace).reverse

/-- Python str.strip with no argument: remove leading and trailing
whitespace. -/
def pyStrip (s : List Char) : List Char := rstrip (lstrip s)

/-- Python str.split with a newline separator: the empty string gives one
empty field, and a trailing newline yields a trailing empty field. -/
def splitLines : List Char → List (List Char)
  | [] => [[]]
  | c :: cs =>
    if c = '\n' then [] :: splitLines cs
    else
      match splitLines cs with
      | [] => [[c]]
      | l :: ls => (c :: l) :: ls

/-- Python newline join on character lists (the join method of a
one-character separator string). -/
def joinLines : List (List Char) → List Char
  | [] => []
  | [l] => l
  | l :: ls => l ++ '\n' :: joinLines ls

/-- Python join with a string separator, used for prompt text. -/
def joinWith (sep : String) : List String → String
  | [] => ""
  | [a] => a
  | a :: as => a ++ sep ++ joinWith sep as

/-- src/app.py line 73: the stored question list is produced by splitting
the questions text area on newlines, stripping every line and dropping the
lines whose stripped form is empty. -/
def questionLines (questions_raw : List Char) : List (List Char) :=
  ((splitLines questions_raw).map pyStrip).filter (fun q => !q.isEmpty)

/-- Project context as assembled on src/app.py lines 74-75. -/
structure Ctx where
  project_no : String
  client_name : String
  industry : String
  resp_type : String
  objectives : String
  questions : List String
deriving DecidableEq

/-- The canonical structured result of an extraction run.  Respondent ids
are optional because the source reads them with the attribute get method,
whose missing-key result is the Python value None. -/
structure SummaryDocument where
  executive_items : List String
  narrative : String
  ideas : List String
  quotes : List (Option String × String)
deriving DecidableEq

/-- One completion-provider request: model identifier, token limit and
prompt text. -/
structure CompletionRequest where
  model_id : String
  max_tokens : Nat
  prompt_text : String
deriving DecidableEq

/-- src/app.py line 27. -/
def CLAUDE_MODEL : String := "claude-sonnet-4-5-20250929"

/-- src/app.py line 28. -/
def MAX_CLAUDE_TOKENS : Nat := 1500

/-- Prompt header built on src/app.py lines 98-106: project metadata
followed by the bulleted question list, with the exact newline layout of
the Python triple-quoted f-string. -/
def headerText (ctx : Ctx) : String :=
  "\nProject: " ++ ctx.project_no ++ " | Client: " ++ ctx.client_name ++
  " | Industry: " ++ ctx.industry ++ "\nObjectives: " ++ ctx.objectives ++
  "\nRespondent Type: " ++ ctx.resp_type ++ "\nQuestions:\n" ++
  joinWith "\n" (ctx.questions.map (fun q => "- " ++ q)) ++ "\n\n"

/-- Fixed instruction block of src/app.py lines 123-128. -/
def instructionText : String :=
  "You are a senior qualitative research analyst and business strategy consultant. Generate exactly:\n- Executive Summary: 6–8 bullets, each 2–3 sentences\n- Narrative Summary: at least 400 words\n- Ideas Worth Exploring: 6–8 bullets, each 2–3 sentences\n- Top 5 Quotes: verbatim with respondent IDs\nReturn only valid XML matching the template below.\n"

/-- Literal structural template of src/app.py lines 107-120. -/
def xml_template : String :=
  "\n<Summary>\n  <Executive>\n    <Item><![CDATA[Bullet text]]></Item>\n  </Executive>\n  <Narrative><![CDATA[Narrative text]]></Narrative>\n  <Ideas>\n    <Idea><![CDATA[Idea text]]></Idea>\n  </Ideas>\n  <Quotes>\n    <Quote id=\"RESP_001\"><![CDATA[Quote text]]></Quote>\n  </Quotes>\n</Summary>\n"

/-- Full composed prompt of src/app.py lines 121-131: header, instruction
block, template, then the raw responses. -/
def composePrompt (ctx : Ctx) (raw : String) : String :=
  headerText ctx ++ instructionText ++ xml_template ++ "\nRaw Responses:\n" ++ raw ++ "\n"

/-- Outcome of the generate-button gate: either an inline validation error
that stops the script, or the run proceeds holding the composed prompt. -/
inductive GenOutcome where
  | validationError (msg : String)
  | proceed (prompt : String)
deriving DecidableEq

/-- src/app.py lines 93-95 followed by 98-131: empty or whitespace-only
responses stop the run first, then an empty question list, and only then
is the prompt built. -/
def generateAction (raw : List Char) (ctx : Ctx) : GenOutcome :=
  if pyStrip raw = [] then GenOutcome.validationError "Paste responses."
  else if ctx.questions = [] then
    GenOutcome.validationError "Enter at least one question."
  else GenOutcome.proceed (composePrompt ctx (String.mk raw))

/-- The only completion call appearing anywhere in src/app.py (lines
132-137): a diagnostic request with a hard-coded older model identifier, a
50-token cap and the fixed prompt "Say hello".  No request carrying the
composed summarisation prompt exists in the source, and the variable the
extractor reads on line 142 is never assigned. -/
def testRequest : CompletionRequest :=
  CompletionRequest.mk "claude-3-5-sonnet-20241022" 50 "Say hello"

/-- Completion-provider calls issued by one press of the generate button,
in source order: none when validation stops the run, otherwise exactly the
diagnostic call of lines 132-137. -/
def generateCalls (raw : List Char) (ctx : Ctx) : List CompletionRequest :=
  match generateAction raw ctx with
  | GenOutcome.validationError _ => []
  | GenOutcome.proceed _ => [testRequest]

/-- Parsed markup node, mirroring the fields of an ElementTree element the
source reads: tag, attribute list, text before the first child (absent
when there is none), and the child list in document order.  Trailing tail
text of children is not recorded because no line of the source reads it. -/
inductive Element where
  | mk (tag : String) (attrs : List (String × String)) (text : Option String)
       (children : List Element)

def Element.tag : Element → String
  | Element.mk t _ _ _ => t

def Element.attrs : Element → List (String × String)
  | Element.mk _ a _ _ => a

def Element.text : Element → Option String
  | Element.mk _ _ tx _ => tx

def Element.children : Element → List Element
  | Element.mk _ _ _ ch => ch

/-- ElementTree find: the first direct child with the given tag. -/
def Element.find (e : Element) (tag : String) : Option Element :=
  e.children.find? (fun c => c.tag == tag)

/-- ElementTree findall: all direct children with the given tag, in
document order. -/
def Element.findall (e : Element) (tag : String) : List Element :=
  e.children.filter (fun c => c.tag == tag)

/-- ElementTree findtext: the text of the first matching child, the empty
string when that child is textless, and the supplied default when no child
matches. -/
def Element.findtext (e : Element) (tag : String) (dflt : String) : String :=
  match e.find tag with
  | some c => c.text.getD ""
  | none => dflt

/-- ElementTree attribute get with no default: the attribute value, or
none (the Python value None) when the attribute is absent. -/
def Element.get (e : Element) (key : String) : Option String :=
  (e.attrs.find? (fun p => p.1 == key)).map (fun p => p.2)

/-- Lexical token of the markup fragment language. -/
inductive Tok where
  | openTok (tag : String) (attrs : List (String × String))
  | closeTok (tag : String)
  | textTok (s : String)

/-- Characters accepted in tag and attribute names. -/
def isNameChar (c : Char) : Bool :=
  c.isAlphanum || c = '_' || c = '-' || c = '.' || c = ':'

/-- Whitespace inside a start tag. -/
def isXmlSpace (c : Char) : Bool :=
  c = ' ' || c = '\t' || c = '\n' || c = '\r'

/-- Modelled from the documented behaviour of xml.etree.ElementTree:
scanner for the attribute region of a start tag, consuming
whitespace-separated name and double-quoted value pairs up to the closing
angle bracket, and rejecting anything else as not well-formed. -/
def lexAttrs : Nat → List Char → Except String (List (String × String) × List Char)
  | 0, _ => Except.error "attribute scan ran out of fuel"
  | Nat.succ fuel, cs =>
    match cs.dropWhile isXmlSpace with
    | [] => Except.error "unterminated start tag"
    | '>' :: rest => Except.ok ([], rest)
    | c :: cs0 =>
      if isNameChar c then
        match (c :: cs0).dropWhile isNameChar with
        | '=' :: '\x22' :: cs3 =>
          match cs3.dropWhile (fun d => d ≠ '\x22') with
          | '\x22' :: cs4 =>
            match lexAttrs fuel cs4 with
            | Except.ok (as, rest) =>
              Except.ok ((String.mk ((c :: cs0).takeWhile isNameChar),
                          String.mk (cs3.takeWhile (fun d => d ≠ '\x22'))) :: as, rest)
            | Except.error e => Except.error e
          | _ => Except.error "unterminated attribute value"
        | _ => Except.error "malformed attribute"
      else Except.error "not well-formed start tag"

/-- Modelled from the documented behaviour of xml.etree.ElementTree:
tokeniser splitting a fragment into start tags, end tags and text runs.
Fuel is the remaining input length plus one; every token consumes at least
one character. -/
def lexToks : Nat → List Char → Except String (List Tok)
  | 0, _ => Except.error "scanner ran out of fuel"
  | Nat.succ _, [] => Except.ok []
  | Nat.succ fuel, '<' :: '/' :: cs =>
    if (cs.takeWhile isNameChar).isEmpty then Except.error "not well-formed end tag"
    else
      match cs.dropWhile isNameChar with
      | '>' :: rest =>
        match lexToks fuel rest with
        | Except.ok ts => Except.ok (Tok.closeTok (String.mk (cs.takeWhile isNameChar)) :: ts)
        | Except.error e => Except.error e
      | _ => Except.error "not well-formed end tag"
  | Nat.succ fuel, '<' :: cs =>
    if (cs.takeWhile isNameChar).isEmpty then Except.error "not well-formed start tag"
    else
      match lexAttrs (Nat.succ fuel) (cs.dropWhile isNameChar) with
      | Except.ok (attrs, rest) =>
        match lexToks fuel rest with
        | Except.ok ts => Except.ok (Tok.openTok (String.mk (cs.takeWhile isNameChar)) attrs :: ts)
        | Except.error e => Except.error e
      | Except.error e => Except.error e
  | Nat.succ fuel, c :: cs =>
    match lexToks fuel ((c :: cs).dropWhile (fun d => d ≠ '<')) with
    | Except.ok ts => Except.ok (Tok.textTok (String.mk ((c :: cs).takeWhile (fun d => d ≠ '<'))) :: ts)
    | Except.error e => Except.error e

/-- Open element under construction while the token stream is folded into
a tree. -/
structure Frame where
  ftag : String
  fattrs : List (String × String)
  ftext : Option String
  fchildren : List Element

/-- Modelled from the documented behaviour of xml.etree.ElementTree:
stack-based tree construction.  Text reaching an element that already has
children is tail text of the last child, which the source never reads and
the model therefore drops; mismatched or missing tags and content outside
the single root are parse errors. -/
def buildTree : List Tok → List Frame → Except String Element
  | [], _ => Except.error "no element found"
  | Tok.openTok t a :: rest, stack => buildTree rest (Frame.mk t a none [] :: stack)
  | Tok.textTok s :: rest, stack =>
    match stack with
    | [] => Except.error "junk after document element"
    | Frame.mk t a tx ch :: fs =>
      match tx, ch with
      | none, [] => buildTree rest (Frame.mk t a (some s) [] :: fs)
      | _, _ => buildTree rest (Frame.mk t a tx ch :: fs)
  | Tok.closeTok t :: rest, stack =>
    match stack with
    | [] => Except.error "mismatched tag"
    | Frame.mk ft fa ftx fch :: fs =>
      if ft = t then
        match fs with
        | [] =>
          match rest with
          | [] => Except.ok (Element.mk ft fa ftx fch.reverse)
          | _ => Except.error "junk after document element"
        | Frame.mk gt ga gtx gch :: gs =>
          buildTree rest (Frame.mk gt ga gtx (Element.mk ft fa ftx fch.reverse :: gch) :: gs)
      else Except.error "mismatched tag"

/-- Modelled from the documented behaviour of xml.etree.ElementTree
fromstring on the fragment language the template uses: plain tags,
double-quoted attributes and text runs. -/
def fromstring (cs : List Char) : Except String Element :=
  match lexToks (cs.length + 1) cs with
  | Except.ok toks => buildTree toks []
  | Except.error e => Except.error e

/-- Failure modes of the extraction stage of src/app.py lines 142-159: the
Summary fragment is absent, the fragment does not parse, or a required
section lookup returned the Python value None and the subsequent findall
attribute access raised.  The last message is one constant string
whichever section is missing. -/
inductive ExtractErr where
  | structureNotFound
  | malformedMarkup (msg : String)
  | attributeError (msg : String)
deriving DecidableEq

/-- Message of the attribute error raised when find returns None and
findall is invoked on it, identical for every missing section. -/
def attrMsg : String := "NoneType object has no attribute findall"

/-- Section traversal of src/app.py lines 156-159, in source order:
executive items, narrative via findtext with an empty-string default,
idea items, then quote pairs of attribute id and text. -/
def extractSections (root : Element) : Except ExtractErr SummaryDocument :=
  match root.find "Executive" with
  | none => Except.error (ExtractErr.attributeError attrMsg)
  | some ex =>
    match root.find "Ideas" with
    | none => Except.error (ExtractErr.attributeError attrMsg)
    | some idn =>
      match root.find "Quotes" with
      | none => Except.error (ExtractErr.attributeError attrMsg)
      | some qn =>
        Except.ok (SummaryDocument.mk
          ((ex.findall "Item").map (fun i => i.text.getD ""))
          (root.findtext "Narrative" "")
          ((idn.findall "Idea").map (fun i => i.text.getD ""))
          ((qn.findall "Quote").map (fun q => (q.get "id", q.text.getD ""))))

/-- Characters of the opening root tag the regular expression looks for. -/
def openTagChars : List Char := "<Summary>".data

/-- Characters of the closing root tag. -/
def closeTagChars : List Char := "</Summary>".data

/-- Index of the first occurrence of a pattern in a character list, as the
search of the Python re module locates the leftmost match start. -/
def strFind (pat : List Char) : List Char → Option Nat
  | [] => if pat = [] then some 0 else none
  | c :: t =>
    if (c :: t).take pat.length = pat then some 0
    else (strFind pat t).map (fun n => n + 1)

/-- src/app.py line 142: the non-greedy search for a Summary fragment.
The leftmost match starts at the first occurrence of the opening tag and
ends at the earliest closing tag that follows it. -/
def reSearchSummary (s : List Char) : Option (List Char) :=
  match strFind openTagChars s with
  | none => none
  | some i =>
    match strFind closeTagChars (s.drop (i + openTagChars.length)) with
    | none => none
    | some j => some ((s.drop i).take (openTagChars.length + j + closeTagChars.length))

/-- Parse of the located fragment followed by section traversal
(src/app.py lines 148-159). -/
def parseFragment (frag : List Char) : Except ExtractErr SummaryDocument :=
  match fromstring frag with
  | Except.error e => Except.error (ExtractErr.malformedMarkup e)
  | Except.ok root => extractSections root

/-- Whole extractor of src/app.py lines 142-159 as a function of the raw
reply text. -/
def extractRaw (response : List Char) : Except ExtractErr SummaryDocument :=
  match reSearchSummary response with
  | none => Except.error ExtractErr.structureNotFound
  | some xml => parseFragment xml

/-- Spec-level predicate, written from the contract words: the reply holds
a substring bounded by an opening root tag and a closing root tag that
starts after the opening tag ends. -/
def occursAt (pat s : List Char) (i : Nat) : Prop :=
  (s.drop i).take pat.length = pat

instance (pat s : List Char) (i : Nat) : Decidable (occursAt pat s i) := by
  unfold occursAt
  infer_instance

/-- The reply contains some bounded Summary fragment. -/
def hasBoundedFragment (s : List Char) : Prop :=
  ∃ i j, occursAt openTagChars s i ∧ occursAt closeTagChars s j ∧
    i + openTagChars.length ≤ j

/-- Python string conversion of an optional string, as an f-string renders
a variable holding either None or a string. -/
def pyStr : Option String → String
  | none => "None"
  | some s => s

/-- Label of a quote tab on src/app.py line 173. -/
def quoteLabel (rid : Option String) : String := "Quote " ++ pyStr rid

/-- Renderable block of the paginated export, the ordered unit the
document renderer consumes. -/
inductive RenderBlock where
  | heading (text : String)
  | paragraph (text : String)
  | image (path : String) (width : ℚ) (height : ℚ)
  | spacerBlock (width : ℚ) (height : ℚ)
  | pageBreak
deriving DecidableEq

/-- Points per millimetre in the export geometry. -/
def mmUnit : ℚ := 360 / 127

/-- File name of the logo resource (src/app.py line 47). -/
def logo_path : String := "Opticom Logotype Blue_tagline_rgb.png"

/-- src/app.py lines 191-194: the logo block is present exactly when the
logo resource resolves, with width forty millimetres and height scaled by
the image aspect ratio. -/
def logoBlocks : Option (Nat × Nat) → List RenderBlock
  | none => []
  | some (w, h) =>
    [RenderBlock.image logo_path (40 * mmUnit) (40 * mmUnit * ((h : ℚ) / (w : ℚ)))]

/-- Metadata line of src/app.py line 196. -/
def metaLine (ctx : Ctx) (generated : String) : String :=
  "Project " ++ ctx.project_no ++ " | Client: " ++ ctx.client_name ++
  " | Industry: " ++ ctx.industry ++ " | Generated: " ++ generated

/-- Bulleted section body of src/app.py lines 204 and 211: the item list
is first joined with newlines into the flat display string (lines 164 and
169) and that string is split back on newlines, one bullet paragraph per
resulting line. -/
def bulletParagraphs (items : List String) : List RenderBlock :=
  (splitLines (joinLines (items.map String.data))).map
    (fun l => RenderBlock.paragraph ("- " ++ String.mk l))

/-- Export block sequence assembled on src/app.py lines 189-215, in source
order. -/
def exportBlocks (logo : Option (Nat × Nat)) (ctx : Ctx) (d : SummaryDocument)
    (generated : String) : List RenderBlock :=
  logoBlocks logo
  ++ [RenderBlock.paragraph (metaLine ctx generated),
      RenderBlock.spacerBlock 1 (5 * mmUnit),
      RenderBlock.heading "Questions:"]
  ++ ctx.questions.map (fun q => RenderBlock.paragraph ("- " ++ q))
  ++ [RenderBlock.pageBreak, RenderBlock.heading "Executive Summary"]
  ++ bulletParagraphs d.executive_items
  ++ [RenderBlock.pageBreak, RenderBlock.heading "Narrative Summary",
      RenderBlock.paragraph d.narrative, RenderBlock.pageBreak,
      RenderBlock.heading "Ideas Worth Exploring"]
  ++ bulletParagraphs d.ideas
  ++ [RenderBlock.pageBreak, RenderBlock.heading "Top Quotes"]
  ++ d.quotes.map (fun p => RenderBlock.paragraph ("<b>" ++ pyStr p.1 ++ "</b>: " ++ p.2))

/-- Export block sequence exactly as the specification sentence enumerates
it: no spacer after the metadata paragraph, one bullet per executive or
idea item taken directly from the item lists, and quote paragraphs
formatted as the respondent id, a colon and the quote text with no
markup. -/
def claimedExportBlocks (logo : Option (Nat × Nat)) (ctx : Ctx) (d : SummaryDocument)
    (generated : String) : List RenderBlock :=
  logoBlocks logo
  ++ [RenderBlock.paragraph (metaLine ctx generated),
      RenderBlock.heading "Questions:"]
  ++ ctx.questions.map (fun q => RenderBlock.paragraph ("- " ++ q))
  ++ [RenderBlock.pageBreak, RenderBlock.heading "Executive Summary"]
  ++ d.executive_items.map (fun i => RenderBlock.paragraph ("- " ++ i))
  ++ [RenderBlock.pageBreak, RenderBlock.heading "Narrative Summary",
      RenderBlock.paragraph d.narrative, RenderBlock.pageBreak,
      RenderBlock.heading "Ideas Worth Exploring"]
  ++ d.ideas.map (fun i => RenderBlock.paragraph ("- " ++ i))
  ++ [RenderBlock.pageBreak, RenderBlock.heading "Top Quotes"]
  ++ d.quotes.map (fun p => RenderBlock.paragraph (pyStr p.1 ++ ": " ++ p.2))

/-- Raw reply of Scenario A of the specification. -/
def scenarioARaw : String :=
  "<Summary><Executive><Item>A</Item><Item>B</Item></Executive><Narrative>N</Narrative><Ideas><Idea>I</Idea></Ideas><Quotes><Quote id=\"R1\">Q1</Quote></Quotes></Summary>"

/-- Executive section of the Scenario A reply as a parsed node. -/
def scenarioAExec : Element :=
  Element.mk "Executive" [] none
    [Element.mk "Item" [] (some "A") [], Element.mk "Item" [] (some "B") []]

/-- Narrative section of the Scenario A reply as a parsed node. -/
def scenarioANarr : Element := Element.mk "Narrative" [] (some "N") []

/-- Ideas section of the Scenario A reply as a parsed node. -/
def scenarioAIdeas : Element :=
  Element.mk "Ideas" [] none [Element.mk "Idea" [] (some "I") []]

/-- Quotes section of the Scenario A reply as a parsed node. -/
def scenarioAQuotes : Element :=
  Element.mk "Quotes" [] none [Element.mk "Quote" [("id", "R1")] (some "Q1") []]

/-- Parsed tree of the Scenario A reply. -/
def scenarioARoot : Element :=
  Element.mk "Summary" [] none
    [scenarioAExec, scenarioANarr, scenarioAIdeas, scenarioAQuotes]

/-- Raw reply with no Summary tag at all. -/
def c3NoTagRaw : String := "The model replied with plain prose only."

/-- Raw reply with prose around a bounded Summary fragment. -/
def c3ProseRaw : String := "xx<Summary>ok</Summary>yy"

/-- Parsed reply missing only the narrative section. -/
def c4Root : Element :=
  Element.mk "Summary" [] none
    [Element.mk "Executive" [] none [Element.mk "Item" [] (some "A") []],
     Element.mk "Ideas" [] none [],
     Element.mk "Quotes" [] none []]

/-- Parsed reply missing the executive section. -/
def c4NoExec : Element :=
  Element.mk "Summary" [] none
    [Element.mk "Narrative" [] (some "N") [],
     Element.mk "Ideas" [] none [],
     Element.mk "Quotes" [] none []]

/-- Parsed reply missing the ideas section. -/
def c4NoIdeas : Element :=
  Element.mk "Summary" [] none
    [Element.mk "Executive" [] none [],
     Element.mk "Narrative" [] (some "N") [],
     Element.mk "Quotes" [] none []]

/-- Narrative node that is present but textless, as parsed from an empty
narrative element. -/
def c5Narr : Element := Element.mk "Narrative" [] none []

/-- Parsed reply whose narrative node is present but textless. -/
def c5Root : Element :=
  Element.mk "Summary" [] none
    [Element.mk "Executive" [] none [], c5Narr,
     Element.mk "Ideas" [] none [], Element.mk "Quotes" [] none []]

/-- Quote node with no respondent-id attribute. -/
def c6Quote : Element := Element.mk "Quote" [] (some "Q1") []

/-- Quotes section holding the id-less quote node. -/
def c6Quotes : Element := Element.mk "Quotes" [] none [c6Quote]

/-- Parsed reply containing one quote without a respondent-id
attribute. -/
def c6Root : Element :=
  Element.mk "Summary" [] none
    [Element.mk "Executive" [] none [],
     Element.mk "Narrative" [] (some "N") [],
     Element.mk "Ideas" [] none [], c6Quotes]

/-- Sample valid project context for the generate action. -/
def c1Ctx : Ctx := Ctx.mk "P100" "Acme" "Manufacturing" "B2B" "Understand churn" ["Why did you churn?"]

/-- Sample valid raw responses text. -/
def c1Raw : String := "RESP_001 - Great product"

/-- Project context used to exercise the input gate. -/
def c7Ctx : Ctx := Ctx.mk "P200" "Beta" "Retail" "B2C" "Explore loyalty" ["What do you value?"]

/-- Project context for the export scenarios. -/
def c8Ctx : Ctx := Ctx.mk "P300" "Gamma" "Energy" "B2B" "Assess brand" ["How do you decide?"]

/-- Summary document with an empty executive list, one idea and two
quotes, one of them without a respondent id. -/
def c8Doc : SummaryDocument :=
  SummaryDocument.mk [] "Story" ["Idea one"] [(some "R1", "Nice"), (none, "Meh")]

/-- Dropping a satisfied-prefix twice is the same as dropping it once. -/
theorem dropWhile_idem {α : Type} (p : α → Bool) (l : List α) :
    (l.dropWhile p).dropWhile p = l.dropWhile p := by
  induction l with
  | nil => rfl
  | cons a t ih =>
    by_cases h : p a
    · simp [List.dropWhile_cons, h, ih]
    · simp [List.dropWhile_cons, h]

/-- The head surviving a dropWhile fails the predicate. -/
theorem dropWhile_cons_head {α : Type} (p : α → Bool) (l : List α) (a : α)
    (t : List α) (h : l.dropWhile p = a :: t) : p a = false := by
  induction l with
  | nil => simp [List.dropWhile] at h
  | cons b u ih =>
    rw [List.dropWhile_cons] at h
    by_cases hb : p b
    · rw [if_pos hb] at h
      exact ih h
    · rw [if_neg hb] at h
      injection h with h1 h2
      subst h1
      simpa using hb

/-- A final element failing the predicate survives dropWhile. -/
theorem dropWhile_append_last {α : Type} (p : α → Bool) (xs : List α) (b : α)
    (hpb : p b = false) : (xs ++ [b]).dropWhile p = xs.dropWhile p ++ [b] := by
  induction xs with
  | nil => simp [List.dropWhile_cons, hpb]
  | cons a t ih =>
    by_cases ha : p a
    · simp [List.dropWhile_cons, ha, ih]
    · simp [List.dropWhile_cons, ha]

/-- Right-stripping twice is the same as right-stripping once. -/
theorem rstrip_idem (t : List Char) : rstrip (rstrip t) = rstrip t := by
  unfold rstrip
  rw [List.reverse_reverse, dropWhile_idem]

/-- Dropping a satisfied prefix never lengthens a list. -/
theorem dropWhile_length_le {α : Type} (p : α → Bool) (l : List α) :
    (l.dropWhile p).length ≤ l.length := by
  induction l with
  | nil => simp
  | cons a t ih =>
    rw [List.dropWhile_cons]
    by_cases h : p a
    · rw [if_pos h]
      exact Nat.le_trans ih (Nat.le_succ _)
    · rw [if_neg h]

/-- The head of a left-stripped nonempty list is not whitespace. -/
theorem head_false_of_lstrip_fix (b : Char) (v : List Char)
    (hu : lstrip (b :: v) = b :: v) : isPySpace b = false := by
  unfold lstrip at hu
  rw [List.dropWhile_cons] at hu
  by_cases hb : isPySpace b
  · rw [if_pos hb] at hu
    have hlen := congrArg List.length hu
    have hle := dropWhile_length_le isPySpace v
    simp at hlen
    omega
  · simpa using hb

/-- Left-stripping a right-stripped, already left-stripped list changes
nothing. -/
theorem lstrip_rstrip (u : List Char) (hu : lstrip u = u) :
    lstrip (rstrip u) = rstrip u := by
  cases u with
  | nil => rfl
  | cons b v =>
    have hb : isPySpace b = false := head_false_of_lstrip_fix b v hu
    have hr : rstrip (b :: v) = b :: (v.reverse.dropWhile isPySpace).reverse := by
      unfold rstrip
      rw [List.reverse_cons, dropWhile_append_last _ _ _ hb, List.reverse_append]
      rfl
    rw [hr]
    unfold lstrip
    rw [List.dropWhile_cons, if_neg (by simp [hb])]

/-- Python strip is idempotent. -/
theorem pyStrip_idem (s : List Char) : pyStrip (pyStrip s) = pyStrip s := by
  show rstrip (lstrip (rstrip (lstrip s))) = rstrip (lstrip s)
  rw [lstrip_rstrip (lstrip s) (dropWhile_idem isPySpace s), rstrip_idem]

/-- A successful pattern search reports a real occurrence. -/
theorem strFind_some_occurs (pat : List Char) (s : List Char) (i : Nat)
    (h : strFind pat s = some i) : occursAt pat s i := by
  induction s generalizing i with
  | nil =>
    rw [strFind] at h
    by_cases hp : pat = []
    · rw [if_pos hp] at h
      injection h with h0
      subst h0
      simp [occursAt, hp]
    · rw [if_neg hp] at h
      cases h
  | cons c t ih =>
    rw [strFind] at h
    by_cases hc : (c :: t).take pat.length = pat
    · rw [if_pos hc] at h
      injection h with h0
      subst h0
      simpa [occursAt] using hc
    · rw [if_neg hc] at h
      cases e : strFind pat t with
      | none => rw [e] at h; cases h
      | some i0 =>
        rw [e] at h
        injection h with h0
        subst h0
        have := ih i0 e
        simpa [occursAt, List.drop_succ_cons] using this

/-- A successful pattern search reports the leftmost occurrence. -/
theorem strFind_some_min (pat : List Char) (s : List Char) (i : Nat)
    (h : strFind pat s = some i) : ∀ k, k < i → ¬ occursAt pat s k := by
  induction s generalizing i with
  | nil =>
    intro k hk hocc
    rw [strFind] at h
    by_cases hp : pat = []
    · rw [if_pos hp] at h
      injection h with h0
      omega
    · rw [if_neg hp] at h
      cases h
  | cons c t ih =>
    intro k hk hocc
    rw [strFind] at h
    by_cases hc : (c :: t).take pat.length = pat
    · rw [if_pos hc] at h
      injection h with h0
      omega
    · rw [if_neg hc] at h
      cases e : strFind pat t with
      | none => rw [e] at h; cases h
      | some i0 =>
        rw [e] at h
        simp only [Option.map] at h
        injection h with h0
        subst h0
        cases k with
        | zero => exact hc (by simpa [occursAt] using hocc)
        | succ k0 =>
          exact ih i0 e k0 (by omega) (by simpa [occursAt, List.drop_succ_cons] using hocc)

/-- A failed pattern search means the pattern occurs nowhere. -/
theorem strFind_none_occurs (pat : List Char) (s : List Char)
    (h : strFind pat s = none) : ∀ i, ¬ occursAt pat s i := by
  induction s with
  | nil =>
    intro i hocc
    rw [strFind] at h
    by_cases hp : pat = []
    · rw [if_pos hp] at h; cases h
    · apply hp
      unfold occursAt at hocc
      simp only [List.drop_nil, List.take_nil] at hocc
      exact hocc.symm
  | cons c t ih =>
    intro i hocc
    rw [strFind] at h
    by_cases hc : (c :: t).take pat.length = pat
    · rw [if_pos hc] at h; cases h
    · rw [if_neg hc] at h
      cases e : strFind pat t with
      | some i0 => rw [e] at h; cases h
      | none =>
        cases i with
        | zero => exact hc (by simpa [occursAt] using hocc)
        | succ i0 =>
          exact ih e i0 (by simpa [occursAt, List.drop_succ_cons] using hocc)

/-- The leftmost occurrence is what the pattern search returns. -/
theorem strFind_eq_some (pat : List Char) (s : List Char) (i : Nat)
    (hocc : occursAt pat s i) (hmin : ∀ k, k < i → ¬ occursAt pat s k) :
    strFind pat s = some i := by
  cases e : strFind pat s with
  | none => exact absurd hocc (strFind_none_occurs pat s e i)
  | some i0 =>
    rcases Nat.lt_trichotomy i i0 with hlt | heq | hgt
    · exact absurd hocc (strFind_some_min pat s i0 e i hlt)
    · rw [heq]
    · exact absurd (strFind_some_occurs pat s i0 e) (hmin i0 hgt)

/-- Occurrence positions shift under a list drop. -/
theorem occursAt_drop (pat s : List Char) (m k : Nat) :
    occursAt pat (s.drop m) k ↔ occursAt pat s (m + k) := by
  unfold occursAt
  rw [List.drop_drop]

/-- The regular-expression search of src/app.py line 142 fails exactly
when no bounded Summary fragment exists in the reply. -/
theorem reSearchSummary_eq_none_iff (s : List Char) :
    reSearchSummary s = none ↔ ¬ hasBoundedFragment s := by
  constructor
  · intro h hb
    obtain ⟨i, j, hoi, hoj, hij⟩ := hb
    cases e : strFind openTagChars s with
    | none => exact strFind_none_occurs _ _ e i hoi
    | some i0 =>
      have hi0 : i0 ≤ i := by
        by_contra hgt
        exact strFind_some_min _ _ _ e i (by omega) hoi
      cases e2 : strFind closeTagChars (s.drop (i0 + openTagChars.length)) with
      | none =>
        have hocc2 : occursAt closeTagChars (s.drop (i0 + openTagChars.length))
            (j - (i0 + openTagChars.length)) := by
          rw [occursAt_drop]
          have heq : i0 + openTagChars.length + (j - (i0 + openTagChars.length)) = j := by
            omega
          rw [heq]
          exact hoj
        exact strFind_none_occurs _ _ e2 _ hocc2
      | some j0 =>
        simp [reSearchSummary, e, e2] at h
  · intro h
    cases e : strFind openTagChars s with
    | none => simp [reSearchSummary, e]
    | some i0 =>
      cases e2 : strFind closeTagChars (s.drop (i0 + openTagChars.length)) with
      | none => simp [reSearchSummary, e, e2]
      | some j0 =>
        exact absurd ⟨i0, i0 + openTagChars.length + j0,
          strFind_some_occurs _ _ _ e,
          (occursAt_drop _ _ _ _).mp (strFind_some_occurs _ _ _ e2),
          by omega⟩ h

/-- With the three sequence sections present, the traversal of src/app.py
lines 156-159 succeeds and returns the document-order projections of the
corresponding nodes. -/
theorem extract_ok (root ex idn qn : Element)
    (hex : root.find "Executive" = some ex)
    (hid : root.find "Ideas" = some idn)
    (hqt : root.find "Quotes" = some qn) :
    extractSections root = Except.ok (SummaryDocument.mk
      ((ex.findall "Item").map (fun i => i.text.getD ""))
      (root.findtext "Narrative" "")
      ((idn.findall "Idea").map (fun i => i.text.getD ""))
      ((qn.findall "Quote").map (fun q => (q.get "id", q.text.getD "")))) := by
  unfold extractSections
  rw [hex, hid, hqt]

/-- C2.  For every parsed reply holding the executive, ideas and quotes
sections, the extractor returns a document whose four fields are the
document-order projections of the corresponding markup nodes (items,
narrative text, ideas, quote attribute-text pairs); in particular, the
concrete Scenario A reply extracts, end to end from the raw text, to
executive items A and B, narrative N, idea I and the single quote pair of
respondent R1 with text Q1. -/
theorem c2_extraction_order (root ex idn qn : Element)
    (hex : root.find "Executive" = some ex)
    (hid : root.find "Ideas" = some idn)
    (hqt : root.find "Quotes" = some qn) :
    extractSections root = Except.ok (SummaryDocument.mk
      ((ex.findall "Item").map (fun i => i.text.getD ""))
      (root.findtext "Narrative" "")
      ((idn.findall "Idea").map (fun i => i.text.getD ""))
      ((qn.findall "Quote").map (fun q => (q.get "id", q.text.getD ""))))
    ∧ extractRaw scenarioARaw.data =
      Except.ok (SummaryDocument.mk ["A", "B"] "N" ["I"] [(some "R1", "Q1")]) := by
  refine ⟨extract_ok root ex idn qn hex hid hqt, ?_⟩
  set_option maxRecDepth 8192 in rfl

/-- Witness for C2 at the parsed Scenario A tree. -/
theorem c2_extraction_order_witness :
    scenarioARoot.find "Executive" = some scenarioAExec ∧
    scenarioARoot.find "Ideas" = some scenarioAIdeas ∧
    scenarioARoot.find "Quotes" = some scenarioAQuotes ∧
    (extractSections scenarioARoot = Except.ok (SummaryDocument.mk
      ((scenarioAExec.findall "Item").map (fun i => i.text.getD ""))
      (scenarioARoot.findtext "Narrative" "")
      ((scenarioAIdeas.findall "Idea").map (fun i => i.text.getD ""))
      ((scenarioAQuotes.findall "Quote").map (fun q => (q.get "id", q.text.getD ""))))
     ∧ extractRaw scenarioARaw.data =
       Except.ok (SummaryDocument.mk ["A", "B"] "N" ["I"] [(some "R1", "Q1")])) :=
  ⟨rfl, rfl, rfl,
    c2_extraction_order scenarioARoot scenarioAExec scenarioAIdeas scenarioAQuotes rfl rfl rfl⟩

/-- C3.  When the reply holds no substring bounded by an opening root tag
and a later matching closing tag, extraction fails with the
structure-not-found error and returns nothing else; when such a substring
exists, the fragment handed to the parser is exactly the first one: it
starts at the leftmost opening tag and ends at the earliest closing tag
after it. -/
theorem c3_structure_not_found (s : List Char) :
    (¬ hasBoundedFragment s →
      extractRaw s = Except.error ExtractErr.structureNotFound)
    ∧ ∀ i j, occursAt openTagChars s i →
        (∀ k, k < i → ¬ occursAt openTagChars s k) →
        occursAt closeTagChars s j → i + openTagChars.length ≤ j →
        (∀ k, i + openTagChars.length ≤ k → k < j → ¬ occursAt closeTagChars s k) →
        extractRaw s = parseFragment ((s.drop i).take (j + closeTagChars.length - i)) := by
  constructor
  · intro h
    have hn : reSearchSummary s = none := (reSearchSummary_eq_none_iff s).mpr h
    simp [extractRaw, hn]
  · intro i j hoi hmin hoj hij hminc
    have e : strFind openTagChars s = some i := strFind_eq_some _ _ _ hoi hmin
    have hocc2 : occursAt closeTagChars (s.drop (i + openTagChars.length))
        (j - (i + openTagChars.length)) := by
      rw [occursAt_drop]
      have heq : i + openTagChars.length + (j - (i + openTagChars.length)) = j := by
        omega
      rw [heq]
      exact hoj
    have hmin2 : ∀ k, k < j - (i + openTagChars.length) →
        ¬ occursAt closeTagChars (s.drop (i + openTagChars.length)) k := by
      intro k hk hocc
      exact hminc (i + openTagChars.length + k) (by omega) (by omega)
        ((occursAt_drop _ _ _ _).mp hocc)
    have e2 : strFind closeTagChars (s.drop (i + openTagChars.length)) =
        some (j - (i + openTagChars.length)) :=
      strFind_eq_some _ _ _ hocc2 hmin2
    have harith : openTagChars.length + (j - (i + openTagChars.length)) +
        closeTagChars.length = j + closeTagChars.length - i := by
      omega
    simp [extractRaw, reSearchSummary, e, e2, harith]

/-- Witness for C3: a prose-only reply fails with the structure error, and
a reply with prose around one bounded fragment parses exactly that
fragment, located at position two with the closing tag at position
thirteen. -/
theorem c3_structure_not_found_witness :
    (¬ hasBoundedFragment c3NoTagRaw.data ∧
      extractRaw c3NoTagRaw.data = Except.error ExtractErr.structureNotFound)
    ∧ (occursAt openTagChars c3ProseRaw.data 2 ∧
       occursAt closeTagChars c3ProseRaw.data 13 ∧
       extractRaw c3ProseRaw.data =
         parseFragment ((c3ProseRaw.data.drop 2).take (13 + closeTagChars.length - 2))) := by
  have hno : ¬ hasBoundedFragment c3NoTagRaw.data :=
    (reSearchSummary_eq_none_iff c3NoTagRaw.data).mp rfl
  refine ⟨⟨hno, (c3_structure_not_found c3NoTagRaw.data).1 hno⟩, by decide, by decide, ?_⟩
  refine (c3_structure_not_found c3ProseRaw.data).2 2 13 (by decide) ?_ (by decide)
    (by decide) ?_
  · intro k hk
    have hcase : k = 0 ∨ k = 1 := by omega
    rcases hcase with h0 | h0 <;> rw [h0] <;> decide
  · intro k h1 h2
    have hcase : k = 11 ∨ k = 12 := by
      have hlen : openTagChars.length = 9 := rfl
      rw [hlen] at h1
      omega
    rcases hcase with h0 | h0 <;> rw [h0] <;> decide

/-- Counterexample to C4: a parsed reply missing only the narrative
section extracts successfully with an empty narrative instead of failing,
and a missing executive or ideas section produces one and the same generic
attribute error, which therefore cannot name the missing section. -/
theorem c4_counterexample :
    extractSections c4Root = Except.ok (SummaryDocument.mk ["A"] "" [] [])
    ∧ extractSections c4NoExec = Except.error (ExtractErr.attributeError attrMsg)
    ∧ extractSections c4NoIdeas = Except.error (ExtractErr.attributeError attrMsg) :=
  ⟨rfl, rfl, rfl⟩

/-- C4 as amended.  A missing executive, ideas or quotes section makes
extraction fail, but with the single generic attribute error shared by all
three rather than an error naming the section; a missing narrative is not
an error and yields an empty narrative; and a present-but-empty section is
not an error and yields an empty sequence. -/
theorem c4_missing_section_amended (root : Element) :
    (root.find "Executive" = none →
      extractSections root = Except.error (ExtractErr.attributeError attrMsg))
    ∧ (∀ ex, root.find "Executive" = some ex → root.find "Ideas" = none →
      extractSections root = Except.error (ExtractErr.attributeError attrMsg))
    ∧ (∀ ex idn, root.find "Executive" = some ex → root.find "Ideas" = some idn →
      root.find "Quotes" = none →
      extractSections root = Except.error (ExtractErr.attributeError attrMsg))
    ∧ (∀ ex idn qn, root.find "Executive" = some ex → root.find "Ideas" = some idn →
      root.find "Quotes" = some qn →
      ∃ d, extractSections root = Except.ok d ∧
        (ex.findall "Item" = [] → d.executive_items = []) ∧
        (idn.findall "Idea" = [] → d.ideas = []) ∧
        (qn.findall "Quote" = [] → d.quotes = []) ∧
        (root.find "Narrative" = none → d.narrative = "")) := by
  refine ⟨?_, ?_, ?_, ?_⟩
  · intro h
    unfold extractSections
    rw [h]
  · intro ex hex h
    unfold extractSections
    rw [hex, h]
  · intro ex idn hex hid h
    unfold extractSections
    rw [hex, hid, h]
  · intro ex idn qn hex hid hqt
    refine ⟨_, extract_ok root ex idn qn hex hid hqt, ?_, ?_, ?_, ?_⟩
    · intro h
      simp [h]
    · intro h
      simp [h]
    · intro h
      simp [h]
    · intro h
      simp [Element.findtext, h]

/-- Witness for the amended C4 at the reply with no executive section. -/
theorem c4_missing_section_amended_witness :
    c4NoExec.find "Executive" = none ∧
    extractSections c4NoExec = Except.error (ExtractErr.attributeError attrMsg) :=
  ⟨rfl, (c4_missing_section_amended c4NoExec).1 rfl⟩

/-- C5.  For every parsed reply whose narrative node is absent or
textless, extraction succeeds (given the three other sections are
present) and the resulting document has the empty string as narrative. -/
theorem c5_narrative_default (root ex idn qn : Element)
    (hex : root.find "Executive" = some ex)
    (hid : root.find "Ideas" = some idn)
    (hqt : root.find "Quotes" = some qn)
    (hnarr : root.find "Narrative" = none ∨
      ∃ n, root.find "Narrative" = some n ∧ n.text = none) :
    ∃ d, extractSections root = Except.ok d ∧ d.narrative = "" := by
  refine ⟨_, extract_ok root ex idn qn hex hid hqt, ?_⟩
  rcases hnarr with h | ⟨n, hn, ht⟩
  · simp [Element.findtext, h]
  · simp [Element.findtext, hn, ht]

/-- Witness for C5 at the reply with a present but textless narrative
node. -/
theorem c5_narrative_default_witness :
    c5Root.find "Executive" = some (Element.mk "Executive" [] none []) ∧
    c5Root.find "Ideas" = some (Element.mk "Ideas" [] none []) ∧
    c5Root.find "Quotes" = some (Element.mk "Quotes" [] none []) ∧
    c5Root.find "Narrative" = some c5Narr ∧ c5Narr.text = none ∧
    ∃ d, extractSections c5Root = Except.ok d ∧ d.narrative = "" :=
  ⟨rfl, rfl, rfl, rfl, rfl,
    c5_narrative_default c5Root _ _ _ rfl rfl rfl (Or.inr ⟨c5Narr, rfl, rfl⟩)⟩

/-- Counterexample to C6: for a quote node with no id attribute the
extracted respondent id is the Python value None, not the empty string,
and the user-visible rendering of that value is the four-letter string
None, distinct from the rendering of an empty id. -/
theorem c6_counterexample :
    extractSections c6Root = Except.ok (SummaryDocument.mk [] "N" [] [(none, "Q1")])
    ∧ c6Quote.get "id" = none
    ∧ quoteLabel none = "Quote None"
    ∧ quoteLabel none ≠ quoteLabel (some "") :=
  ⟨rfl, rfl, rfl, by decide⟩

/-- C6 as amended.  Quote pairs preserve document order and carry the id
attribute and verbatim text of each node; an absent id attribute is
carried as the Python value None, which the display renders as the string
None rather than as an empty string. -/
theorem c6_quote_extraction_amended (root ex idn qn : Element)
    (hex : root.find "Executive" = some ex)
    (hid : root.find "Ideas" = some idn)
    (hqt : root.find "Quotes" = some qn) :
    (∃ d, extractSections root = Except.ok d ∧
      d.quotes = (qn.findall "Quote").map (fun q => (q.get "id", q.text.getD "")))
    ∧ quoteLabel none = "Quote None" :=
  ⟨⟨_, extract_ok root ex idn qn hex hid hqt, rfl⟩, rfl⟩

/-- Witness for the amended C6 at the reply holding one id-less quote. -/
theorem c6_quote_extraction_amended_witness :
    c6Root.find "Executive" = some (Element.mk "Executive" [] none []) ∧
    c6Root.find "Ideas" = some (Element.mk "Ideas" [] none []) ∧
    c6Root.find "Quotes" = some c6Quotes ∧
    ((∃ d, extractSections c6Root = Except.ok d ∧
      d.quotes = (c6Quotes.findall "Quote").map (fun q => (q.get "id", q.text.getD "")))
     ∧ quoteLabel none = "Quote None") :=
  ⟨rfl, rfl, rfl, c6_quote_extraction_amended c6Root _ _ _ rfl rfl rfl⟩

/-- C7.  Whenever the raw responses are empty or whitespace-only, or the
question list is empty, the generate action stops with an inline
validation error: no prompt value is produced and no completion-provider
call is issued. -/
theorem c7_input_validation (raw : List Char) (ctx : Ctx)
    (h : pyStrip raw = [] ∨ ctx.questions = []) :
    (∃ m, generateAction raw ctx = GenOutcome.validationError m)
    ∧ generateCalls raw ctx = [] := by
  by_cases h1 : pyStrip raw = []
  · exact ⟨⟨"Paste responses.", by simp [generateAction, h1]⟩,
      by simp [generateCalls, generateAction, h1]⟩
  · have h2 : ctx.questions = [] := h.resolve_left h1
    exact ⟨⟨"Enter at least one question.", by simp [generateAction, h1, h2]⟩,
      by simp [generateCalls, generateAction, h1, h2]⟩

/-- Witness for C7 at a whitespace-only responses box and a context that
still has a question. -/
theorem c7_input_validation_witness :
    pyStrip "   ".data = [] ∧
    ((∃ m, generateAction "   ".data c7Ctx = GenOutcome.validationError m)
     ∧ generateCalls "   ".data c7Ctx = []) :=
  ⟨by decide, c7_input_validation "   ".data c7Ctx (Or.inl (by decide))⟩

/-- C1 is violated by the source: on a validated generation run the only
provider call the generate branch contains is the leftover diagnostic call
with the older hard-coded model identifier, the 50-token cap and the fixed
prompt, and no issued call carries the composed summarisation prompt
(whose would-be carrier variable is never assigned in the source). -/
theorem c1_pipeline_calls :
    generateAction c1Raw.data c1Ctx = GenOutcome.proceed (composePrompt c1Ctx c1Raw)
    ∧ generateCalls c1Raw.data c1Ctx = [testRequest]
    ∧ testRequest.model_id = "claude-3-5-sonnet-20241022"
    ∧ testRequest.model_id ≠ CLAUDE_MODEL
    ∧ testRequest.max_tokens ≠ MAX_CLAUDE_TOKENS
    ∧ testRequest.prompt_text ≠ composePrompt c1Ctx c1Raw :=
  ⟨rfl, rfl, rfl, by decide, by decide, by decide⟩

/-- Counterexample to C8: at a document with an empty executive list and
quotes with ids, the block sequence the code assembles differs from the
enumerated specification sequence — the code inserts a spacer after the
metadata paragraph, emits one empty bullet for the empty executive list,
and wraps quote respondent ids in bold markup. -/
theorem c8_counterexample :
    exportBlocks none c8Ctx c8Doc "2025-05-06 12:00" ≠
      claimedExportBlocks none c8Ctx c8Doc "2025-05-06 12:00" := by
  decide

/-- C8 as amended.  The export sequence is: the logo image block exactly
when the logo resolves, the metadata paragraph followed by a spacer block,
the questions heading with one bullet per question, a page break, the
executive heading with one bullet paragraph per line of the newline-joined
executive items, a page break, the narrative heading and paragraph, a page
break, the ideas heading with bullets likewise derived from the
newline-joined ideas, a page break, and the quotes heading with one
paragraph per quote whose text is the respondent id wrapped in bold markup,
a colon and the quote text. -/
theorem c8_export_blocks_amended (logo : Option (Nat × Nat)) (ctx : Ctx)
    (d : SummaryDocument) (generated : String) :
    exportBlocks logo ctx d generated =
      logoBlocks logo
      ++ [RenderBlock.paragraph (metaLine ctx generated),
          RenderBlock.spacerBlock 1 (5 * mmUnit),
          RenderBlock.heading "Questions:"]
      ++ ctx.questions.map (fun q => RenderBlock.paragraph ("- " ++ q))
      ++ [RenderBlock.pageBreak, RenderBlock.heading "Executive Summary"]
      ++ (splitLines (joinLines (d.executive_items.map String.data))).map
          (fun l => RenderBlock.paragraph ("- " ++ String.mk l))
      ++ [RenderBlock.pageBreak, RenderBlock.heading "Narrative Summary",
          RenderBlock.paragraph d.narrative, RenderBlock.pageBreak,
          RenderBlock.heading "Ideas Worth Exploring"]
      ++ (splitLines (joinLines (d.ideas.map String.data))).map
          (fun l => RenderBlock.paragraph ("- " ++ String.mk l))
      ++ [RenderBlock.pageBreak, RenderBlock.heading "Top Quotes"]
      ++ d.quotes.map (fun p => RenderBlock.paragraph ("<b>" ++ pyStr p.1 ++ "</b>: " ++ p.2)) :=
  rfl

/-- C9.  Joining an empty item list and re-splitting yields one empty
line, so an empty executive or ideas list still produces exactly one
empty-text bullet paragraph under its heading in the export sequence. -/
theorem c9_empty_bullet :
    bulletParagraphs [] = [RenderBlock.paragraph "- "]
    ∧ ∀ (logo : Option (Nat × Nat)) (ctx : Ctx) (d : SummaryDocument)
        (generated : String),
      (d.executive_items = [] → ∃ pre post,
        exportBlocks logo ctx d generated =
          pre ++ RenderBlock.heading "Executive Summary" ::
            RenderBlock.paragraph "- " :: RenderBlock.pageBreak :: post)
      ∧ (d.ideas = [] → ∃ pre post,
        exportBlocks logo ctx d generated =
          pre ++ RenderBlock.heading "Ideas Worth Exploring" ::
            RenderBlock.paragraph "- " :: RenderBlock.pageBreak :: post) := by
  have hb : bulletParagraphs ([] : List String) = [RenderBlock.paragraph "- "] := rfl
  refine ⟨hb, ?_⟩
  intro logo ctx d generated
  constructor
  · intro h
    refine ⟨logoBlocks logo
      ++ [RenderBlock.paragraph (metaLine ctx generated),
          RenderBlock.spacerBlock 1 (5 * mmUnit),
          RenderBlock.heading "Questions:"]
      ++ ctx.questions.map (fun q => RenderBlock.paragraph ("- " ++ q))
      ++ [RenderBlock.pageBreak],
      RenderBlock.heading "Narrative Summary" :: RenderBlock.paragraph d.narrative ::
        RenderBlock.pageBreak :: RenderBlock.heading "Ideas Worth Exploring" ::
        (bulletParagraphs d.ideas
         ++ [RenderBlock.pageBreak, RenderBlock.heading "Top Quotes"]
         ++ d.quotes.map (fun p =>
              RenderBlock.paragraph ("<b>" ++ pyStr p.1 ++ "</b>: " ++ p.2))), ?_⟩
    simp only [exportBlocks, h, hb]
    simp [List.append_assoc]
  · intro h
    refine ⟨logoBlocks logo
      ++ [RenderBlock.paragraph (metaLine ctx generated),
          RenderBlock.spacerBlock 1 (5 * mmUnit),
          RenderBlock.heading "Questions:"]
      ++ ctx.questions.map (fun q => RenderBlock.paragraph ("- " ++ q))
      ++ [RenderBlock.pageBreak, RenderBlock.heading "Executive Summary"]
      ++ bulletParagraphs d.executive_items
      ++ [RenderBlock.pageBreak, RenderBlock.heading "Narrative Summary",
          RenderBlock.paragraph d.narrative, RenderBlock.pageBreak],
      RenderBlock.heading "Top Quotes" ::
        d.quotes.map (fun p =>
          RenderBlock.paragraph ("<b>" ++ pyStr p.1 ++ "</b>: " ++ p.2)), ?_⟩
    simp only [exportBlocks, h, hb]
    simp [List.append_assoc]

/-- Witness for C9 at the sample document with an empty executive list. -/
theorem c9_empty_bullet_witness :
    c8Doc.executive_items = [] ∧
    ∃ pre post, exportBlocks none c8Ctx c8Doc "2025-05-06 12:00" =
      pre ++ RenderBlock.heading "Executive Summary" ::
        RenderBlock.paragraph "- " :: RenderBlock.pageBreak :: post :=
  ⟨rfl, ((c9_empty_bullet.2 none c8Ctx c8Doc "2025-05-06 12:00").1 rfl)⟩

/-- C10.  Every question stored by the context builder is a fixed point of
stripping and is nonempty: blank or whitespace-only lines are dropped. -/
theorem c10_questions_nonblank (questions_raw q : List Char)
    (hq : q ∈ questionLines questions_raw) : pyStrip q = q ∧ q ≠ [] := by
  unfold questionLines at hq
  rw [List.mem_filter] at hq
  obtain ⟨hmem, hne⟩ := hq
  obtain ⟨x, hx, rfl⟩ := List.mem_map.mp hmem
  refine ⟨pyStrip_idem x, ?_⟩
  intro h
  rw [h] at hne
  simp at hne

/-- Witness for C10 on a questions box with whitespace and blank lines. -/
theorem c10_questions_nonblank_witness :
    ['a'] ∈ questionLines "  a \n\n b ".data ∧
    (pyStrip ['a'] = ['a'] ∧ ['a'] ≠ []) :=
  ⟨by decide, c10_questions_nonblank "  a \n\n b ".data ['a'] (by decide)⟩
